import Mathlib

/-!
Verification of the stackabuse_scraper program (src/stackabuse_scraper.py).

The development shallowly embeds the scraper: HTML pages are modelled at the
level of the elements the program's BeautifulSoup selectors read, the network
is a `Site` mapping URLs to fetched pages (`none` models "no response or
non-200 status"), and Python exceptions are modelled by `Except PyError`.
Python's unbounded recursion in `parse_posts` is modelled with an explicit
depth budget: exhausting it yields `PyError.recursionError`, mirroring
Python's recursion limit; all theorems about terminating crawls hold for
every sufficiently large budget.
-/

/-- Python exceptions that the scraper's code paths can raise. -/
inductive PyError where
  | attributeError
  | keyError (key : String)
  | typeError
  | indexError
  | recursionError
deriving DecidableEq

deriving instance DecidableEq for Except

/-- Python's `str.strip()`: removes leading and trailing whitespace. -/
def pyStrip (s : String) : String :=
  String.mk (((s.data.dropWhile Char.isWhitespace).reverse.dropWhile Char.isWhitespace).reverse)

/-- Python's `str.replace(c, '')` for a one-character pattern, as called at
source lines 26-27 (`x.text.replace('#', '')`): removes every occurrence of
the character. -/
def pyRemoveChar (c : Char) (s : String) : String :=
  String.mk (s.data.filter (fun x => x != c))

/-- Python's `sep.join(items)` over a list of strings (source line 132). -/
def pyJoin (sep : String) : List String → String
  | [] => ""
  | [s] => s
  | s :: rest => s ++ sep ++ pyJoin sep rest

/-- A Python `map` object, as produced at source lines 26-27: a single-use
lazy iterator. `remaining` holds the items a traversal would still yield. -/
structure MapIter where
  remaining : List String
deriving DecidableEq

/-- Traversing a `map` object yields its remaining items and exhausts it:
a later traversal of the same object yields nothing. -/
def MapIter.consume (m : MapIter) : List String × MapIter :=
  (m.remaining, MapIter.mk [])

/-- The `<time>` element found at source line 62; `datetime` is its
`datetime` attribute (`none` models an absent attribute, whose subscript
access raises `KeyError`). -/
structure TimeElem where
  datetime : Option String
deriving DecidableEq

/-- The `<a class='block hover:no-underline'>` element of one article block
(source lines 57-60): `h3` is the text of its `<h3>` child (`none` models a
missing `<h3>`, where `.text` on `None` raises `AttributeError`), `href` its
`href` attribute (`none` models absence, raising `KeyError`). -/
structure DetailsAnchor where
  h3 : Option String
  href : Option String
deriving DecidableEq

/-- The `<div class='mt-6 flex items-center'>` element of one article block
(source lines 61-64): its `<time>` child and the text of its
`<a class='hover:underline'>` author link (each `none` when absent). -/
structure MetaDiv where
  timeElem : Option TimeElem
  authorAnchor : Option String
deriving DecidableEq

/-- One `<div class='p-6'>` post-summary block on a listing page
(source line 56), reduced to the two child elements the loop body reads. -/
structure ArticleBlock where
  detailsAnchor : Option DetailsAnchor
  metaDiv : Option MetaDiv
deriving DecidableEq

/-- A fetched listing page: its article blocks in document order and the
`href` of the pagination anchor found at source lines 85-86 (`none` when the
"older posts" control is absent). -/
structure ListingPage where
  articles : List ArticleBlock
  pagination : Option String
deriving DecidableEq

/-- A fetched article detail page, reduced to what `parse_page` reads
(source lines 25-34): the anchor texts inside the
`<div class='mt-8 mb-4'>` category wrapper (`none` when the wrapper is
absent, where `find_all` on `None` raises `AttributeError`), the `content`
attribute of each `<meta name='description'>` (`none` models an element
without that attribute, where `.strip()` on `None` raises
`AttributeError`), and the text of each `<p>` in document order. -/
structure DetailPage where
  categoryWrapper : Option (List String)
  metaDescriptions : List (Option String)
  paragraphs : List String
deriving DecidableEq

/-- The network: what `requests.get` followed by HTML parsing yields for
each URL. `none` models "no response or non-200 status" — the failure case
of the checks at source lines 23 and 54. -/
structure Site where
  listing : String → Option ListingPage
  detail : String → Option DetailPage

/-- The fixed site origin (source line 13). -/
def BASE_URL : String := "https://stackabuse.com"

/-- The dict returned by `parse_page`: the full three-key dict built at
source lines 36-40, or the empty dict `{}` returned at line 43 after a
fetch failure. -/
inductive PageData where
  | empty
  | full (categories : MapIter) (description : String) (content : String)
deriving DecidableEq

/-- The description branch of `parse_page` (source lines 28-33):
`description_data[0].get('content').strip()` when at least one
`<meta name='description'>` exists (raising `AttributeError` when the first
one lacks a `content` attribute, since `.strip()` is called on `None`),
else the empty string. -/
def descriptionOf : List (Option String) → Except PyError String
  | [] => Except.ok ""
  | none :: _ => Except.error PyError.attributeError
  | some c :: _ => Except.ok (pyStrip c)

/-- Source lines 16-43, `parse_page`: fetch an article page and read its
category anchors, meta description and first paragraph. On fetch failure it
returns the empty dict. The categories value is a lazy `map` object; the
wrapped list of anchor texts is snapshotted here (`find_all` runs eagerly as
the `map` argument) while the per-item lambda is pure, so applying it
eagerly is observationally equal. A missing category wrapper raises
`AttributeError` (line 27 calls `find_all` on `None`); an empty paragraph
list raises `IndexError` at line 34. -/
def parse_page (site : Site) (page_url : String) : Except PyError PageData :=
  match site.detail page_url with
  | none => Except.ok PageData.empty
  | some html =>
    match html.categoryWrapper with
    | none => Except.error PyError.attributeError
    | some anchors =>
      match descriptionOf html.metaDescriptions with
      | Except.error e => Except.error e
      | Except.ok description =>
        match html.paragraphs with
        | [] => Except.error PyError.indexError
        | p :: _ =>
          Except.ok (PageData.full
            (MapIter.mk (anchors.map (fun x => pyStrip (pyRemoveChar '#' x))))
            description (pyStrip p))

/-- The post dict built at source lines 70-79, in field order. -/
structure Post where
  title : String
  link : String
  date : String
  author : String
  editor : String
  description : String
  categories : MapIter
  content : String
deriving DecidableEq

/-- The body of the article loop of `parse_posts` (source lines 57-79) for
one `<div class='p-6'>` block: read title, link, date and author from the
block, fetch the article's own page, and build the post dict. Each `find`
that can return `None` and each subscript that can miss produces the
exception Python would raise at that line; when `parse_page` returned the
empty dict, the first dict access `page_data['description']` at line 76
raises `KeyError('description')`. -/
def extract_article (site : Site) (defaut_editor : String) (article : ArticleBlock) :
    Except PyError Post :=
  match article.detailsAnchor with
  | none => Except.error PyError.attributeError
  | some article_details =>
    match article_details.h3 with
    | none => Except.error PyError.attributeError
    | some title_text =>
      match article_details.href with
      | none => Except.error (PyError.keyError "href")
      | some href =>
        match article.metaDiv with
        | none => Except.error PyError.attributeError
        | some meta =>
          match meta.timeElem with
          | none => Except.error PyError.typeError
          | some time_elem =>
            match time_elem.datetime with
            | none => Except.error (PyError.keyError "datetime")
            | some datetime_text =>
              match meta.authorAnchor with
              | none => Except.error PyError.attributeError
              | some author_text =>
                match parse_page site (BASE_URL ++ href) with
                | Except.error e => Except.error e
                | Except.ok PageData.empty => Except.error (PyError.keyError "description")
                | Except.ok (PageData.full categories description content) =>
                  Except.ok (Post.mk (pyStrip title_text) (BASE_URL ++ href)
                    (pyStrip datetime_text) (pyStrip author_text) defaut_editor
                    description categories content)

/-- The article loop of `parse_posts` (source lines 56-81): extract each
block in document order, appending its post to the page's list. A Python
exception raised for one block aborts the loop — and, since `parse_posts`
has no handler, the whole crawl — so an error here propagates and later
blocks are never reached. -/
def parse_articles (site : Site) (defaut_editor : String) :
    List ArticleBlock → Except PyError (List Post)
  | [] => Except.ok []
  | a :: rest =>
    match extract_article site defaut_editor a with
    | Except.error e => Except.error e
    | Except.ok p =>
      match parse_articles site defaut_editor rest with
      | Except.error e => Except.error e
      | Except.ok ps => Except.ok (p :: ps)

/-- Source lines 46-93, `parse_posts`: fetch the listing page at
`author_url`; on fetch failure return the empty list (line 93); otherwise
run the article loop, then follow the pagination anchor, if present, by
recursing on `BASE_URL + href` and appending the older posts (line 89).
The first argument after the editor is the remaining recursion budget,
modelling Python's recursion limit. -/
def parse_posts (site : Site) (defaut_editor : String) :
    Nat → String → Except PyError (List Post)
  | 0, _ => Except.error PyError.recursionError
  | fuel + 1, author_url =>
    match site.listing author_url with
    | none => Except.ok []
    | some html =>
      match parse_articles site defaut_editor html.articles with
      | Except.error e => Except.error e
      | Except.ok posts =>
        match html.pagination with
        | none => Except.ok posts
        | some href =>
          match parse_posts site defaut_editor fuel (BASE_URL ++ href) with
          | Except.error e => Except.error e
          | Except.ok older => Except.ok (posts ++ older)

/-- `parse_posts` instrumented with the list of listing-page URLs for which
an HTTP GET is attempted (source line 53 runs once per call, before any
success check), in request order. The first component is exactly the value
`parse_posts` computes. -/
def parse_posts_traced (site : Site) (defaut_editor : String) :
    Nat → String → Except PyError (List Post) × List String
  | 0, _ => (Except.error PyError.recursionError, [])
  | fuel + 1, author_url =>
    match site.listing author_url with
    | none => (Except.ok [], [author_url])
    | some html =>
      match parse_articles site defaut_editor html.articles with
      | Except.error e => (Except.error e, [author_url])
      | Except.ok posts =>
        match html.pagination with
        | none => (Except.ok posts, [author_url])
        | some href =>
          match parse_posts_traced site defaut_editor fuel (BASE_URL ++ href) with
          | (Except.error e, trace) => (Except.error e, author_url :: trace)
          | (Except.ok older, trace) => (Except.ok (posts ++ older), author_url :: trace)

/-- A Python value as it appears inside a post dict: every field is a `str`
except `categories`, which holds the `map` object made at source
lines 26-27. -/
inductive PyLeaf where
  | str (s : String)
  | mapObj (m : MapIter)
deriving DecidableEq

/-- The post dict as the `json` module sees it: key/value pairs in the
insertion order of source lines 70-79. -/
def Post.toDict (p : Post) : List (String × PyLeaf) :=
  [("title", PyLeaf.str p.title), ("link", PyLeaf.str p.link),
   ("date", PyLeaf.str p.date), ("author", PyLeaf.str p.author),
   ("editor", PyLeaf.str p.editor), ("description", PyLeaf.str p.description),
   ("categories", PyLeaf.mapObj p.categories), ("content", PyLeaf.str p.content)]

/-- Modelled from the `json` library: the escaping applied to a string when
it is serialized (backslash and double quote; other characters in this
development's strings pass through unchanged). -/
def jsonEscape (s : String) : String :=
  String.mk (s.data.flatMap (fun c =>
    if c = '"' then ['\\', '"'] else if c = '\\' then ['\\', '\\'] else [c]))

/-- Modelled from the `json` library: `json.dump` serializes a `str` value
as a quoted string and raises `TypeError` on a `map` object, which is not
JSON serializable. -/
def json_dump_leaf : PyLeaf → Except PyError String
  | PyLeaf.str s => Except.ok ("\"" ++ jsonEscape s ++ "\"")
  | PyLeaf.mapObj _ => Except.error PyError.typeError

/-- Modelled from the `json` library: serialize each key/value pair of a
dict in insertion order, stopping at the first non-serializable value. -/
def json_dump_fields : List (String × PyLeaf) → Except PyError (List String)
  | [] => Except.ok []
  | (k, v) :: rest =>
    match json_dump_leaf v with
    | Except.error e => Except.error e
    | Except.ok s =>
      match json_dump_fields rest with
      | Except.error e => Except.error e
      | Except.ok ss => Except.ok (("\"" ++ jsonEscape k ++ "\": " ++ s) :: ss)

/-- Modelled from the `json` library with `indent=4`: a dict nested one
level inside the top array prints its fields at eight spaces of
indentation. -/
def json_dump_dict (d : List (String × PyLeaf)) : Except PyError String :=
  match json_dump_fields d with
  | Except.error e => Except.error e
  | Except.ok [] => Except.ok "\x7b\x7d"
  | Except.ok ss =>
    Except.ok ("\x7b\n        " ++ pyJoin ",\n        " ss ++ "\n    \x7d")

/-- Serialize each post dict of the list in order, stopping at the first
error. -/
def json_dump_items : List Post → Except PyError (List String)
  | [] => Except.ok []
  | p :: rest =>
    match json_dump_dict p.toDict with
    | Except.error e => Except.error e
    | Except.ok s =>
      match json_dump_items rest with
      | Except.error e => Except.error e
      | Except.ok ss => Except.ok (s :: ss)

/-- Modelled from the `json` library: `json.dump(posts, file, indent=4)`
(source line 101) — the full record collection as a 4-space pretty-printed
array of objects, or the exception it raises. -/
def json_dump_posts (posts : List Post) : Except PyError String :=
  match json_dump_items posts with
  | Except.error e => Except.error e
  | Except.ok [] => Except.ok "[]"
  | Except.ok ss => Except.ok ("[\n    " ++ pyJoin ",\n    " ss ++ "\n]")

/-- Source lines 96-101, `get_posts_json`, with the file write factored
out: crawl, then serialize the result with `json.dump(posts, indent=4)`. -/
def get_posts_json (site : Site) (fuel : Nat) (author_url defaut_editor : String) :
    Except PyError String :=
  match parse_posts site defaut_editor fuel author_url with
  | Except.error e => Except.error e
  | Except.ok posts => json_dump_posts posts

/-- Source lines 121-135, the per-post body of `get_posts_markdown`: the
lines written for one post, paired with the post as the write leaves it.
Formatting `tags` at line 132 runs `', '.join(post['categories'])`, which
traverses — and so exhausts — the post's `map` object; every other field is
read without mutation. (Note source line 131 concatenates the adjacent
string literals `'description'` and `': "{}"...'`, and line 132 likewise,
so the emitted keys are plain `description:` and `tags:`.) -/
def post_markdown (post : Post) : List String × Post :=
  match MapIter.consume post.categories with
  | (cats, catsAfter) =>
    (["---\n",
      "title: \"" ++ post.title ++ "\"\n",
      "date: " ++ post.date ++ "\n",
      "link: " ++ post.link ++ "\n",
      "author: " ++ post.author ++ "\n",
      "editor: " ++ post.editor ++ "\n",
      "description: \"" ++ post.description ++ "\"\n",
      "tags: [" ++ pyJoin ", " cats ++ "]\n",
      "---\n\n",
      post.content ++ "\n"],
     Post.mk post.title post.link post.date post.author post.editor
       post.description catsAfter post.content)

/-- Source lines 116-135, `get_posts_markdown`, over an already-crawled
record collection and with the file writes factored out: the lines written
for each post in order, paired with the posts as the traversal leaves
them. -/
def get_posts_markdown : List Post → List (List String) × List Post
  | [] => ([], [])
  | p :: rest =>
    match post_markdown p with
    | (body, p') =>
      match get_posts_markdown rest with
      | (bodies, rest') => (body :: bodies, p' :: rest')

/-- A finite, acyclic pagination chain starting at a URL: every page of the
list is fetched successfully at its URL, each page but the last carries a
pagination href leading (resolved against `BASE_URL`) to the next, and the
last page has no pagination control. -/
inductive Chain (site : Site) : String → List ListingPage → Prop where
  | last (url : String) (p : ListingPage) :
      site.listing url = some p → p.pagination = none → Chain site url [p]
  | cons (url : String) (p : ListingPage) (href : String) (ps : List ListingPage) :
      site.listing url = some p → p.pagination = some href →
      Chain site (BASE_URL ++ href) ps → Chain site url (p :: ps)

/-- A pagination chain whose last followed URL fails to fetch: the listed
pages are fetched successfully, each carries a pagination href to the next
stage, and the URL after the last listed page yields no response. -/
inductive ChainFail (site : Site) : String → List ListingPage → Prop where
  | fail (url : String) : site.listing url = none → ChainFail site url []
  | cons (url : String) (p : ListingPage) (href : String) (ps : List ListingPage) :
      site.listing url = some p → p.pagination = some href →
      ChainFail site (BASE_URL ++ href) ps → ChainFail site url (p :: ps)

/-- Whether a string has the normalized date shape `YYYY-MM-DD`: exactly
ten characters, digits except for dashes at positions four and seven. -/
def isIsoDate (s : String) : Bool :=
  match s.data with
  | [y1, y2, y3, y4, s1, m1, m2, s2, d1, d2] =>
    y1.isDigit && y2.isDigit && y3.isDigit && y4.isDigit && s1 == '-' &&
    m1.isDigit && m2.isDigit && s2 == '-' && d1.isDigit && d2.isDigit
  | _ => false

/-- Detail page of the mock post A: one category tag, a meta description
and one paragraph. -/
def detailA : DetailPage := DetailPage.mk (some ["#python"]) [some "Desc A"] ["Body A"]

/-- Detail page of the mock post B: two category tags, no
`<meta name='description'>` element, one paragraph. -/
def detailB : DetailPage := DetailPage.mk (some ["#flask", "#web"]) [] ["Body B"]

/-- Detail page of the mock post C: an empty category wrapper, a meta
description and one paragraph. -/
def detailC : DetailPage := DetailPage.mk (some []) [some "Desc C"] ["Body C"]

/-- A detail page whose body contains no `<p>` element at all. -/
def detailNoParas : DetailPage := DetailPage.mk (some ["#x"]) [some "D"] []

/-- A well-formed summary block for post A. -/
def blockA : ArticleBlock :=
  ArticleBlock.mk
    (some (DetailsAnchor.mk (some "Post A") (some "/post-a")))
    (some (MetaDiv.mk (some (TimeElem.mk (some "2020-01-03"))) (some "Alice")))

/-- A well-formed summary block for post B. -/
def blockB : ArticleBlock :=
  ArticleBlock.mk
    (some (DetailsAnchor.mk (some "Post B") (some "/post-b")))
    (some (MetaDiv.mk (some (TimeElem.mk (some "2020-01-02"))) (some "Alice")))

/-- A well-formed summary block for post C, whose `<time>` element carries
a human-readable, non-ISO `datetime` attribute. -/
def blockC : ArticleBlock :=
  ArticleBlock.mk
    (some (DetailsAnchor.mk (some "Post C") (some "/post-c")))
    (some (MetaDiv.mk (some (TimeElem.mk (some "Jan 1, 2020"))) (some "Alice")))

/-- A malformed summary block: the title/link anchor and the meta div are
both missing, so the first `find` of the loop body returns `None`. -/
def blockBad : ArticleBlock := ArticleBlock.mk none none

/-- A well-formed summary block whose article page will fail to fetch. -/
def blockX : ArticleBlock :=
  ArticleBlock.mk
    (some (DetailsAnchor.mk (some "Post X") (some "/post-x")))
    (some (MetaDiv.mk (some (TimeElem.mk (some "2020-01-04"))) (some "Alice")))

/-- First listing page of the two-page mock site: two posts and a "next"
pagination control. -/
def pageW1 : ListingPage := ListingPage.mk [blockA, blockB] (some "/author/w/page/2/")

/-- Second listing page of the two-page mock site: one post, no pagination
control. -/
def pageW2 : ListingPage := ListingPage.mk [blockC] none

/-- The two-page mock site: a chain of two listing pages whose posts all
fetch successfully, plus one extra detail page with no paragraphs. -/
def siteW : Site :=
  Site.mk
    (fun u =>
      if u = "https://stackabuse.com/author/w/" then some pageW1
      else if u = "https://stackabuse.com/author/w/page/2/" then some pageW2
      else none)
    (fun u =>
      if u = "https://stackabuse.com/post-a" then some detailA
      else if u = "https://stackabuse.com/post-b" then some detailB
      else if u = "https://stackabuse.com/post-c" then some detailC
      else if u = "https://stackabuse.com/no-paras" then some detailNoParas
      else none)

/-- The record the crawl builds for block A (editor "Ed"). -/
def postA : Post :=
  Post.mk "Post A" "https://stackabuse.com/post-a" "2020-01-03" "Alice" "Ed"
    "Desc A" (MapIter.mk ["python"]) "Body A"

/-- The record the crawl builds for block B (editor "Ed"): its detail page
has no meta description, so the description defaults to the empty
string. -/
def postB : Post :=
  Post.mk "Post B" "https://stackabuse.com/post-b" "2020-01-02" "Alice" "Ed"
    "" (MapIter.mk ["flask", "web"]) "Body B"

/-- The record the crawl builds for block C (editor "Ed"): its date is the
raw `datetime` attribute text. -/
def postC : Post :=
  Post.mk "Post C" "https://stackabuse.com/post-c" "Jan 1, 2020" "Alice" "Ed"
    "Desc C" (MapIter.mk []) "Body C"

/-- Sole successfully fetched page of the failing-chain mock site: one post
and a pagination control pointing at a page that will fail to fetch. -/
def pageF1 : ListingPage := ListingPage.mk [blockA] (some "/author/f/page/2/")

/-- A mock site whose second listing page fails to fetch (no response),
while page one and every detail fetch succeed. -/
def siteF : Site :=
  Site.mk
    (fun u => if u = "https://stackabuse.com/author/f/" then some pageF1 else none)
    (fun u => if u = "https://stackabuse.com/post-a" then some detailA else none)

/-- Sole listing page of the detail-failure mock site: three well-formed
posts, the second of which links to an article page that fails to fetch. -/
def pageD1 : ListingPage := ListingPage.mk [blockA, blockX, blockB] none

/-- A mock site where the listing page fetches fine but the detail fetch
for the second of its three posts fails (no response for `/post-x`). -/
def siteD : Site :=
  Site.mk
    (fun u => if u = "https://stackabuse.com/author/d/" then some pageD1 else none)
    (fun u =>
      if u = "https://stackabuse.com/post-a" then some detailA
      else if u = "https://stackabuse.com/post-b" then some detailB
      else none)

/-- Evaluating a crawl along a successful finite chain: with enough
recursion budget, `parse_posts` returns the in-order concatenation of the
per-page record lists. -/
theorem parse_posts_of_chain (site : Site) (ed : String) (url : String)
    (pages : List ListingPage) (hc : Chain site url pages) :
    ∀ (ls : List (List Post)) (fuel : Nat),
    List.Forall₂ (fun p l => parse_articles site ed p.articles = Except.ok l) pages ls →
    pages.length ≤ fuel →
    parse_posts site ed fuel url = Except.ok ls.flatten := by
  induction hc with
  | last u p hp hpag =>
    intro ls fuel hf hlen
    rcases hf with _ | ⟨hpl, hnil⟩
    rcases hnil
    obtain ⟨f, rfl⟩ : ∃ f, fuel = f + 1 := ⟨fuel - 1, by simp at hlen; omega⟩
    simp [parse_posts, hp, hpl, hpag]
  | cons u p href ps hp hpag _ ih =>
    intro ls fuel hf hlen
    rcases hf with _ | ⟨hpl, hf'⟩
    obtain ⟨f, rfl⟩ : ∃ f, fuel = f + 1 := ⟨fuel - 1, by simp at hlen; omega⟩
    have hrec := ih _ f hf' (by simp at hlen; omega)
    simp [parse_posts, hp, hpl, hpag, hrec]

/-- Evaluating a crawl along a chain whose next fetch fails: with enough
recursion budget, `parse_posts` returns the in-order concatenation of the
successfully fetched pages' record lists — the failure is swallowed and no
further page contributes. -/
theorem parse_posts_of_chainFail (site : Site) (ed : String) (url : String)
    (pages : List ListingPage) (hc : ChainFail site url pages) :
    ∀ (ls : List (List Post)) (fuel : Nat),
    List.Forall₂ (fun p l => parse_articles site ed p.articles = Except.ok l) pages ls →
    pages.length < fuel →
    parse_posts site ed fuel url = Except.ok ls.flatten := by
  induction hc with
  | fail u hp =>
    intro ls fuel hf hlen
    rcases hf
    obtain ⟨f, rfl⟩ : ∃ f, fuel = f + 1 := ⟨fuel - 1, by omega⟩
    simp [parse_posts, hp]
  | cons u p href ps hp hpag _ ih =>
    intro ls fuel hf hlen
    rcases hf with _ | ⟨hpl, hf'⟩
    obtain ⟨f, rfl⟩ : ∃ f, fuel = f + 1 := ⟨fuel - 1, by omega⟩
    have hrec := ih _ f hf' (by simp at hlen; omega)
    simp [parse_posts, hp, hpl, hpag, hrec]

/-- The instrumented crawl computes the same result as `parse_posts`. -/
theorem parse_posts_traced_fst (site : Site) (ed : String) :
    ∀ (fuel : Nat) (url : String),
    (parse_posts_traced site ed fuel url).1 = parse_posts site ed fuel url := by
  intro fuel
  induction fuel with
  | zero => intro url; rfl
  | succ f ih =>
    intro url
    cases hl : site.listing url with
    | none => simp [parse_posts_traced, parse_posts, hl]
    | some html =>
      cases ha : parse_articles site ed html.articles with
      | error e => simp [parse_posts_traced, parse_posts, hl, ha]
      | ok posts =>
        cases hpag : html.pagination with
        | none => simp [parse_posts_traced, parse_posts, hl, ha, hpag]
        | some href =>
          have hih := ih (BASE_URL ++ href)
          cases h : parse_posts_traced site ed f (BASE_URL ++ href) with
          | mk r t =>
            rw [h] at hih
            simp only at hih
            cases r <;>
              simp [parse_posts_traced, parse_posts, hl, ha, hpag, h, ← hih]

/-- Along a successful chain with enough budget, the crawl attempts exactly
one listing-page GET per page of the chain. -/
theorem parse_posts_traced_len (site : Site) (ed : String) (url : String)
    (pages : List ListingPage) (hc : Chain site url pages) :
    ∀ (ls : List (List Post)) (fuel : Nat),
    List.Forall₂ (fun p l => parse_articles site ed p.articles = Except.ok l) pages ls →
    pages.length ≤ fuel →
    (parse_posts_traced site ed fuel url).2.length = pages.length := by
  induction hc with
  | last u p hp hpag =>
    intro ls fuel hf hlen
    rcases hf with _ | ⟨hpl, hnil⟩
    rcases hnil
    obtain ⟨f, rfl⟩ : ∃ f, fuel = f + 1 := ⟨fuel - 1, by simp at hlen; omega⟩
    simp [parse_posts_traced, hp, hpl, hpag]
  | cons u p href ps hp hpag _ ih =>
    intro ls fuel hf hlen
    rcases hf with _ | ⟨hpl, hf'⟩
    obtain ⟨f, rfl⟩ : ∃ f, fuel = f + 1 := ⟨fuel - 1, by simp at hlen; omega⟩
    have hrec := ih _ f hf' (by simp at hlen; omega)
    simp only [parse_posts_traced, hp, hpl, hpag]
    cases h : parse_posts_traced site ed f (BASE_URL ++ href) with
    | mk r t =>
      rw [h] at hrec
      simp only at hrec
      cases r <;> simp_all

/-- Along a successful chain, every page but the terminal one carries a
pagination control, so the number of pages with a "next" control plus one
is the chain's length. -/
theorem chain_filter_len (site : Site) (url : String) (pages : List ListingPage)
    (hc : Chain site url pages) :
    (pages.filter (fun p => p.pagination.isSome)).length + 1 = pages.length := by
  induction hc with
  | last u p hp hpag => simp [hpag]
  | cons u p href ps hp hpag _ ih => simp [hpag, ih]

/-- Every post of a successfully extracted listing page comes from one of
the page's article blocks. -/
theorem parse_articles_mem (site : Site) (ed : String) :
    ∀ (as : List ArticleBlock) (l : List Post) (p : Post),
    parse_articles site ed as = Except.ok l → p ∈ l →
    ∃ a, a ∈ as ∧ extract_article site ed a = Except.ok p := by
  intro as
  induction as with
  | nil =>
    intro l p h hp
    simp only [parse_articles] at h
    cases h
    cases hp
  | cons a rest ih =>
    intro l p h hp
    simp only [parse_articles] at h
    cases he : extract_article site ed a with
    | error e => rw [he] at h; cases h
    | ok q =>
      rw [he] at h
      cases hr : parse_articles site ed rest with
      | error e => rw [hr] at h; cases h
      | ok ps =>
        rw [hr] at h
        cases h
        rcases List.mem_cons.mp hp with hq | hps
        · exact ⟨a, List.mem_cons_self a rest, by rw [he, hq]⟩
        · obtain ⟨b, hb, hbe⟩ := ih ps p hr hps
          exact ⟨b, List.mem_cons_of_mem a hb, hbe⟩

/-- Every post of a successful crawl comes from some article block via
`extract_article`. -/
theorem parse_posts_mem (site : Site) (ed : String) :
    ∀ (fuel : Nat) (url : String) (l : List Post) (p : Post),
    parse_posts site ed fuel url = Except.ok l → p ∈ l →
    ∃ a, extract_article site ed a = Except.ok p := by
  intro fuel
  induction fuel with
  | zero => intro url l p h hp; cases h
  | succ f ih =>
    intro url l p h hp
    cases hl : site.listing url with
    | none =>
      simp only [parse_posts, hl] at h
      cases h; cases hp
    | some html =>
      cases ha : parse_articles site ed html.articles with
      | error e => simp only [parse_posts, hl, ha] at h; cases h
      | ok posts =>
        cases hpag : html.pagination with
        | none =>
          simp only [parse_posts, hl, ha, hpag, Except.ok.injEq] at h
          subst h
          obtain ⟨a, _, hae⟩ := parse_articles_mem site ed html.articles _ p ha hp
          exact ⟨a, hae⟩
        | some href =>
          cases hrec : parse_posts site ed f (BASE_URL ++ href) with
          | error e => simp only [parse_posts, hl, ha, hpag, hrec] at h; cases h
          | ok older =>
            simp only [parse_posts, hl, ha, hpag, hrec, Except.ok.injEq] at h
            subst h
            rcases List.mem_append.mp hp with hin | hin
            · obtain ⟨a, _, hae⟩ := parse_articles_mem site ed html.articles _ p ha hin
              exact ⟨a, hae⟩
            · exact ih (BASE_URL ++ href) older p hrec hin

/-- Inversion of a successful block extraction: the block's selectors all
found their elements, and the post's `link` is `BASE_URL` concatenated with
the block's raw href while its `date` is the raw `datetime` attribute,
merely whitespace-stripped. -/
theorem extract_article_ok (site : Site) (ed : String) (a : ArticleBlock) (p : Post)
    (h : extract_article site ed a = Except.ok p) :
    ∃ d m te, a.detailsAnchor = some d ∧ a.metaDiv = some m ∧ m.timeElem = some te ∧
      (∃ href, d.href = some href ∧ p.link = BASE_URL ++ href) ∧
      (∃ dt, te.datetime = some dt ∧ p.date = pyStrip dt) := by
  cases hda : a.detailsAnchor with
  | none => simp only [extract_article, hda] at h; cases h
  | some d =>
    cases ht : d.h3 with
    | none => simp only [extract_article, hda, ht] at h; cases h
    | some title_text =>
      cases hhr : d.href with
      | none => simp only [extract_article, hda, ht, hhr] at h; cases h
      | some href =>
        cases hm : a.metaDiv with
        | none => simp only [extract_article, hda, ht, hhr, hm] at h; cases h
        | some m =>
          cases hte : m.timeElem with
          | none => simp only [extract_article, hda, ht, hhr, hm, hte] at h; cases h
          | some te =>
            cases hdt : te.datetime with
            | none => simp only [extract_article, hda, ht, hhr, hm, hte, hdt] at h; cases h
            | some dt =>
              cases hau : m.authorAnchor with
              | none =>
                simp only [extract_article, hda, ht, hhr, hm, hte, hdt, hau] at h; cases h
              | some au =>
                cases hpp : parse_page site (BASE_URL ++ href) with
                | error e =>
                  simp only [extract_article, hda, ht, hhr, hm, hte, hdt, hau, hpp] at h
                  cases h
                | ok pd =>
                  cases pd with
                  | empty =>
                    simp only [extract_article, hda, ht, hhr, hm, hte, hdt, hau, hpp] at h
                    cases h
                  | full cats desc cont =>
                    simp only [extract_article, hda, ht, hhr, hm, hte, hdt, hau, hpp,
                      Except.ok.injEq] at h
                    subst h
                    exact ⟨d, m, te, rfl, rfl, hte, ⟨href, hhr, rfl⟩, ⟨dt, hdt, rfl⟩⟩

/-- An exception raised while extracting one block aborts the whole article
loop with that exception: blocks before the offending one must all succeed
for the loop to reach it, and blocks after it are never extracted. -/
theorem parse_articles_error_propagates (site : Site) (ed : String) :
    ∀ (bs : List ArticleBlock) (ps : List Post) (a : ArticleBlock) (e : PyError)
    (cs : List ArticleBlock),
    parse_articles site ed bs = Except.ok ps →
    extract_article site ed a = Except.error e →
    parse_articles site ed (bs ++ a :: cs) = Except.error e := by
  intro bs
  induction bs with
  | nil =>
    intro ps a e cs _ ha
    simp [parse_articles, ha]
  | cons b rest ih =>
    intro ps a e cs h ha
    cases he : extract_article site ed b with
    | error e' => simp only [parse_articles, he] at h; cases h
    | ok q =>
      cases hr : parse_articles site ed rest with
      | error e' => simp only [parse_articles, he, hr] at h; cases h
      | ok qs =>
        have := ih qs a e cs hr ha
        simp [parse_articles, he, this]

/-- C1: for every crawl over a chain of listing pages in which the fetch of
page k fails while pages 1..k-1 fetched (and their blocks and detail pages
processed) successfully, the crawl returns exactly the concatenation of the
records of pages 1..k-1 in order, raises no error, and includes no record
from page k or any later page. -/
theorem crawl_fetch_failure_partial_result (site : Site) (ed url : String)
    (pages : List ListingPage) (ls : List (List Post)) (fuel : Nat)
    (hchain : ChainFail site url pages)
    (hext : List.Forall₂
      (fun p l => parse_articles site ed p.articles = Except.ok l) pages ls)
    (hfuel : pages.length < fuel) :
    parse_posts site ed fuel url = Except.ok ls.flatten :=
  parse_posts_of_chainFail site ed url pages hchain ls fuel hext hfuel

/-- Witness for C1: on the mock site whose second listing page fails to
fetch, the crawl returns exactly page one's single record. -/
theorem crawl_fetch_failure_partial_result_witness :
    parse_posts siteF "Ed" 2 "https://stackabuse.com/author/f/" = Except.ok [postA] := by
  have h := crawl_fetch_failure_partial_result siteF "Ed"
    "https://stackabuse.com/author/f/" [pageF1] [[postA]] 2
    (ChainFail.cons "https://stackabuse.com/author/f/" pageF1 "/author/f/page/2/" []
      (by decide) (by decide)
      (ChainFail.fail ("https://stackabuse.com" ++ "/author/f/page/2/") (by decide)))
    (List.Forall₂.cons (by decide) List.Forall₂.nil) (by decide)
  exact h.trans (by decide)

/-- C4: for every crawl over a successful finite chain, the result is the
in-order concatenation of the per-page record lists — strict
page-then-in-page order, never reordered or deduplicated. -/
theorem crawl_preserves_order (site : Site) (ed url : String)
    (pages : List ListingPage) (ls : List (List Post)) (fuel : Nat)
    (hchain : Chain site url pages)
    (hext : List.Forall₂
      (fun p l => parse_articles site ed p.articles = Except.ok l) pages ls)
    (hfuel : pages.length ≤ fuel) :
    parse_posts site ed fuel url = Except.ok ls.flatten :=
  parse_posts_of_chain site ed url pages hchain ls fuel hext hfuel

/-- Witness for C4: the spec's concrete scenario — page 1 lists two posts
and links to page 2, page 2 lists one post and has no "next" link; the
crawl yields exactly [page1-item1, page1-item2, page2-item1]. -/
theorem crawl_preserves_order_witness :
    parse_posts siteW "Ed" 2 "https://stackabuse.com/author/w/"
      = Except.ok [postA, postB, postC] := by
  have h := crawl_preserves_order siteW "Ed"
    "https://stackabuse.com/author/w/" [pageW1, pageW2] [[postA, postB], [postC]] 2
    (Chain.cons "https://stackabuse.com/author/w/" pageW1 "/author/w/page/2/" [pageW2]
      (by decide) (by decide)
      (Chain.last ("https://stackabuse.com" ++ "/author/w/page/2/") pageW2
        (by decide) (by decide)))
    (List.Forall₂.cons (by decide) (List.Forall₂.cons (by decide) List.Forall₂.nil))
    (by decide)
  exact h.trans (by decide)

/-- C5: for every successful finite acyclic chain, the crawl terminates
(returns a value, the same for every sufficient recursion budget) and
attempts exactly one listing GET per page of the chain — the number of
pages carrying a "next" control plus the one terminal page without it. -/
theorem crawl_terminates_counting_pages (site : Site) (ed url : String)
    (pages : List ListingPage) (ls : List (List Post)) (fuel : Nat)
    (hchain : Chain site url pages)
    (hext : List.Forall₂
      (fun p l => parse_articles site ed p.articles = Except.ok l) pages ls)
    (hfuel : pages.length ≤ fuel) :
    (parse_posts_traced site ed fuel url).2.length
        = (pages.filter (fun p => p.pagination.isSome)).length + 1 ∧
      parse_posts site ed fuel url = Except.ok ls.flatten := by
  constructor
  · rw [parse_posts_traced_len site ed url pages hchain ls fuel hext hfuel]
    exact (chain_filter_len site url pages hchain).symm
  · exact parse_posts_of_chain site ed url pages hchain ls fuel hext hfuel

/-- Witness for C5: on the two-page mock site the crawl attempts exactly
two listing GETs (one page with a "next" control plus the terminal page)
and returns its three records. -/
theorem crawl_terminates_counting_pages_witness :
    (parse_posts_traced siteW "Ed" 2 "https://stackabuse.com/author/w/").2.length = 2 ∧
      parse_posts siteW "Ed" 2 "https://stackabuse.com/author/w/"
        = Except.ok [postA, postB, postC] := by
  obtain ⟨h1, h2⟩ := crawl_terminates_counting_pages siteW "Ed"
    "https://stackabuse.com/author/w/" [pageW1, pageW2] [[postA, postB], [postC]] 2
    (Chain.cons "https://stackabuse.com/author/w/" pageW1 "/author/w/page/2/" [pageW2]
      (by decide) (by decide)
      (Chain.last ("https://stackabuse.com" ++ "/author/w/page/2/") pageW2
        (by decide) (by decide)))
    (List.Forall₂.cons (by decide) (List.Forall₂.cons (by decide) List.Forall₂.nil))
    (by decide)
  exact ⟨h1.trans (by decide), h2.trans (by decide)⟩

/-- C6: every record of a successful crawl has a `link` built by
concatenating the block's page-relative href onto the fixed origin
`BASE_URL`, so the origin is a prefix of every record's link. -/
theorem crawl_link_shares_origin (site : Site) (ed url : String) (fuel : Nat)
    (posts : List Post) (p : Post)
    (hcrawl : parse_posts site ed fuel url = Except.ok posts) (hp : p ∈ posts) :
    ∃ href, p.link = BASE_URL ++ href ∧ BASE_URL.data <+: p.link.data := by
  obtain ⟨a, ha⟩ := parse_posts_mem site ed fuel url posts p hcrawl hp
  obtain ⟨d, m, te, _, _, _, ⟨href, _, hlink⟩, _⟩ := extract_article_ok site ed a p ha
  refine ⟨href, hlink, ?_⟩
  rw [hlink]
  exact ⟨href.data, rfl⟩

/-- Witness for C6: the first record of the two-page mock crawl carries a
link prefixed by the site origin. -/
theorem crawl_link_shares_origin_witness :
    ∃ href, postA.link = BASE_URL ++ href ∧ BASE_URL.data <+: postA.link.data :=
  crawl_link_shares_origin siteW "Ed" "https://stackabuse.com/author/w/" 2
    [postA, postB, postC] postA (by decide) (by decide)

/-- C7 counterexample: listing extraction performs no date parsing or
normalization — block C's `<time>` element carries the non-ISO `datetime`
text "Jan 1, 2020", and the record built from it carries exactly that text
as its date, which is not of the form YYYY-MM-DD. -/
theorem listing_date_not_normalized :
    extract_article siteW "Ed" blockC = Except.ok postC ∧
      postC.date = "Jan 1, 2020" ∧ isIsoDate postC.date = false := by decide

/-- C7 amended: the date field of every record produced by listing
extraction is the `<time>` element's raw `datetime` attribute value,
whitespace-stripped but otherwise copied verbatim — no parsing against a
textual date format and no normalization to YYYY-MM-DD occurs. -/
theorem listing_date_copied_verbatim (site : Site) (ed : String)
    (a : ArticleBlock) (p : Post) (h : extract_article site ed a = Except.ok p) :
    ∃ m te dt, a.metaDiv = some m ∧ m.timeElem = some te ∧
      te.datetime = some dt ∧ p.date = pyStrip dt := by
  obtain ⟨d, m, te, _, hm, hte, _, dt, hdt, hdate⟩ := extract_article_ok site ed a p h
  exact ⟨m, te, dt, hm, hte, hdt, hdate⟩

/-- Witness for the amended C7: block C's record carries the stripped raw
`datetime` attribute as its date. -/
theorem listing_date_copied_verbatim_witness :
    ∃ m te dt, blockC.metaDiv = some m ∧ m.timeElem = some te ∧
      te.datetime = some dt ∧ postC.date = pyStrip dt :=
  listing_date_copied_verbatim siteW "Ed" blockC postC (by decide)

/-- C3 counterexample: a listing page whose first block is malformed (its
title/link anchor is missing) makes the whole article loop raise
`AttributeError` — the malformed block is not skipped, and the following,
perfectly extractable block is never returned. -/
theorem block_failure_not_skipped :
    parse_articles siteW "Ed" [blockBad, blockB] = Except.error PyError.attributeError ∧
      extract_article siteW "Ed" blockB = Except.ok postB := by decide

/-- C3 amended: a per-block extraction failure is not recovered — the
exception aborts the article loop (and with it the crawl), so the blocks
before the offending one are the only ones extracted and the failure
propagates out of listing extraction. -/
theorem block_failure_aborts_listing (site : Site) (ed : String)
    (bs : List ArticleBlock) (ps : List Post) (a : ArticleBlock) (e : PyError)
    (cs : List ArticleBlock)
    (hok : parse_articles site ed bs = Except.ok ps)
    (herr : extract_article site ed a = Except.error e) :
    parse_articles site ed (bs ++ a :: cs) = Except.error e :=
  parse_articles_error_propagates site ed bs ps a e cs hok herr

/-- Witness for the amended C3: with a good block before and after the
malformed one, the loop stops at the malformed block's exception. -/
theorem block_failure_aborts_listing_witness :
    parse_articles siteW "Ed" ([blockA] ++ blockBad :: [blockB])
      = Except.error PyError.attributeError :=
  block_failure_aborts_listing siteW "Ed" [blockA] [postA] blockBad
    PyError.attributeError [blockB] (by decide) (by decide)

/-- C2 (code bug): on a listing of three well-formed posts whose second
detail fetch fails, the crawl does not degrade that record's enrichment
fields and continue — `parse_page` returns the empty dict and the access
`page_data['description']` raises `KeyError('description')`, aborting the
whole crawl, even though the first record extracted fine. -/
theorem detail_fetch_failure_aborts_crawl :
    extract_article siteD "Ed" blockA = Except.ok postA ∧
      extract_article siteD "Ed" blockX = Except.error (PyError.keyError "description") ∧
      parse_posts siteD "Ed" 1 "https://stackabuse.com/author/d/"
        = Except.error (PyError.keyError "description") := by decide

/-- C8 (code bug): the crawl over the two-page mock site succeeds, but
serializing its records with `json.dump(posts, indent=4)` raises
`TypeError` — each record's `categories` value is a `map` object, which is
not JSON serializable, so the JSON encoder never emits categories as an
array and does raise. -/
theorem json_encoding_raises :
    parse_posts siteW "Ed" 2 "https://stackabuse.com/author/w/"
        = Except.ok [postA, postB, postC] ∧
      get_posts_json siteW 2 "https://stackabuse.com/author/w/" "Ed"
        = Except.error PyError.typeError := by decide

/-- C9: the no-paragraph error branch of the detail extractor is reachable
— on a detail page with no `<p>` element at all, `parse_page` raises
`IndexError` (the `[0]` subscript at source line 34) instead of degrading
`content` to an empty string. -/
theorem detail_no_paragraph_raises :
    siteW.detail "https://stackabuse.com/no-paras" = some detailNoParas ∧
      detailNoParas.paragraphs = [] ∧
      parse_page siteW "https://stackabuse.com/no-paras" = Except.error PyError.indexError := by
  decide

/-- C10 counterexample: a crawl result is not observationally immutable
under encoding — running the markdown encoder over a one-record result
mutates the record (its categories iterator is exhausted), and a second
encoding of the same records produces different output than the first. -/
theorem markdown_reencoding_differs :
    (get_posts_markdown [postA]).2 ≠ [postA] ∧
      (get_posts_markdown ((get_posts_markdown [postA]).2)).1
        ≠ (get_posts_markdown [postA]).1 := by decide

/-- C10 amended: the markdown encoder reassigns no field — title, link,
date, author, editor, description and content are left equal — but each
record's `categories` is a single-use lazy `map` object that the encoder's
`', '.join` exhausts, so a second encoding of the same record observes an
empty categories sequence (it behaves exactly as if the record's
categories were empty). -/
theorem markdown_encoder_exhausts_categories (p : Post) :
    (post_markdown p).2.title = p.title ∧ (post_markdown p).2.link = p.link ∧
      (post_markdown p).2.date = p.date ∧ (post_markdown p).2.author = p.author ∧
      (post_markdown p).2.editor = p.editor ∧
      (post_markdown p).2.description = p.description ∧
      (post_markdown p).2.content = p.content ∧
      (post_markdown p).2.categories = MapIter.mk [] ∧
      (post_markdown (post_markdown p).2).1
        = (post_markdown (Post.mk p.title p.link p.date p.author p.editor
            p.description (MapIter.mk []) p.content)).1 :=
  ⟨rfl, rfl, rfl, rfl, rfl, rfl, rfl, rfl, rfl⟩

/-- Witness for the amended C10 at a concrete record: post A's categories
iterator is exhausted by the first markdown encoding, and re-encoding
behaves as if the record's categories were empty. -/
theorem markdown_encoder_exhausts_categories_witness :
    (post_markdown postA).2.categories = MapIter.mk [] ∧
      (post_markdown (post_markdown postA).2).1
        = (post_markdown (Post.mk postA.title postA.link postA.date postA.author
            postA.editor postA.description (MapIter.mk []) postA.content)).1 := by
  have h := markdown_encoder_exhausts_categories postA
  exact ⟨h.2.2.2.2.2.2.2.1, h.2.2.2.2.2.2.2.2⟩
